import Mathlib

/-!
Endpoints event handler of the ingress controller.

Shallow embedding of `controllers/ingress/eventhandlers/endpoints_events.go`.

The handler `enqueueRequestsForEndpointsEvent` reacts to Create / Update / Delete /
Generic events for `corev1.Endpoints` objects.  For a relevant event it fetches the
`corev1.Service` of the same namespace and name through the Kubernetes client and sends
a generic event carrying that service on `svcEventChan`.

The Go methods return nothing; everything they do is an effect on a collaborator
(the client, the logger, the channel, the work queue).  The embedding makes those
effects explicit: every method takes the state of the object store and the work queue
it is handed, and returns the new store state, the ordered trace of calls it made on
the client, the logger and the channel, and the work queue as it leaves it.

Event objects are non-nil pointers (controller-runtime does not deliver nil objects),
and the send on `svcEventChan` is recorded at the point where the consumer accepts it.
-/

namespace eventhandlers

/-! ## Kubernetes object model (the fields of `k8s.io/api/core/v1` the handler can see) -/

/-- Go `types.NamespacedName`; `client.ObjectKey` is an alias of it. -/
structure NamespacedName where
  Namespace : String
  Name : String
deriving DecidableEq, Repr

/-- Go `client.ObjectKey`. -/
abbrev ObjectKey := NamespacedName

/-- Go `metav1.TypeMeta`. -/
structure TypeMeta where
  Kind : String
  APIVersion : String
deriving DecidableEq, Repr

/-- Go `metav1.ObjectMeta`: identity plus the metadata that may change on an update.
Go maps are kept as association lists; the handler only reads `Namespace` and `Name`. -/
structure ObjectMeta where
  Name : String
  Namespace : String
  UID : String
  ResourceVersion : String
  Generation : Int
  Labels : List (String × String)
  Annotations : List (String × String)
deriving DecidableEq, Repr

/-- Go `corev1.ObjectReference` (all fields are strings; `UID` is a string type). -/
structure ObjectReference where
  Kind : String
  Namespace : String
  Name : String
  UID : String
  APIVersion : String
  ResourceVersion : String
  FieldPath : String
deriving DecidableEq, Repr

/-- Go `corev1.EndpointAddress`; the pointer fields are options (`none` is the nil pointer). -/
structure EndpointAddress where
  IP : String
  Hostname : String
  NodeName : Option String
  TargetRef : Option ObjectReference
deriving DecidableEq, Repr

/-- Go `corev1.EndpointPort`; `Port` is an `int32`, `Protocol` a string type. -/
structure EndpointPort where
  Name : String
  Port : Int
  Protocol : String
  AppProtocol : Option String
deriving DecidableEq, Repr

/-- Go `corev1.EndpointSubset`.  A Go slice is the list of its elements: the nil slice and
the zero-length slice are both the empty list. -/
structure EndpointSubset where
  Addresses : List EndpointAddress
  NotReadyAddresses : List EndpointAddress
  Ports : List EndpointPort
deriving DecidableEq, Repr

/-- Go `corev1.Endpoints`. -/
structure Endpoints extends TypeMeta, ObjectMeta where
  Subsets : List EndpointSubset
deriving DecidableEq, Repr

/-- Go `corev1.ServiceSpec`, reduced to two fields (`ServiceType` is Go's `Type`); the
handler never reads the spec. -/
structure ServiceSpec where
  ServiceType : String
  ClusterIP : String
deriving DecidableEq, Repr

/-- Go `corev1.Service`. -/
structure Service extends TypeMeta, ObjectMeta where
  Spec : ServiceSpec
deriving DecidableEq, Repr

/-! ## controller-runtime events -/

/-- Go `event.TypedCreateEvent[T]`. -/
structure TypedCreateEvent (T : Type) where
  Object : T
deriving DecidableEq, Repr

/-- Go `event.TypedUpdateEvent[T]`. -/
structure TypedUpdateEvent (T : Type) where
  ObjectOld : T
  ObjectNew : T
deriving DecidableEq, Repr

/-- Go `event.TypedDeleteEvent[T]`. -/
structure TypedDeleteEvent (T : Type) where
  Object : T
  DeleteStateUnknown : Bool
deriving DecidableEq, Repr

/-- Go `event.TypedGenericEvent[T]`. -/
structure TypedGenericEvent (T : Type) where
  Object : T
deriving DecidableEq, Repr

/-! ## Collaborators -/

/-- Go `context.Context`, as far as a lookup can observe it: `Err` is `ctx.Err()`. -/
structure Context where
  Err : Option String
deriving DecidableEq, Repr

/-- The `error` a `client.Client.Get` can return, by kind. -/
inductive ClientError where
  | NotFound (key : ObjectKey)
  | Transient (msg : String)
  | Canceled
  | DeadlineExceeded
deriving DecidableEq, Repr

/-- The answer of one `Get`: Go returns `nil` and fills the service, or returns an error. -/
inductive GetResult where
  | ok (svc : Service)
  | error (err : ClientError)
deriving DecidableEq, Repr

/-- Go `client.Client`, reduced to `Get` for services.  The store may be stateful: `Get`
reads the store state `σ` and returns the answer together with the next store state. -/
structure Client (σ : Type) where
  Get : σ → Context → ObjectKey → GetResult × σ

/-- Go `workqueue.RateLimitingInterface`, as the state of the queue behind it. -/
structure RateLimitingQueue where
  items : List NamespacedName
  processing : List NamespacedName
  numRequeues : List (NamespacedName × Nat)
  shuttingDown : Bool
deriving DecidableEq, Repr

/-- One call made by the handler on a collaborator, in the order it was made. -/
inductive Effect where
  | Get (ctx : Context) (key : ObjectKey) (res : GetResult)
  | LogError (err : ClientError) (msg : String)
  | LogInfo (v : Nat) (msg : String) (keysAndValues : List (String × NamespacedName))
  | Send (ev : TypedGenericEvent Service)
deriving DecidableEq, Repr

/-- What a handler call leaves behind. -/
structure Outcome (σ : Type) where
  store : σ
  trace : List Effect
  queue : RateLimitingQueue

/-- Modelled from the spec: `k8s.NamespacedName` of `pkg/k8s` is not among the sources; it
yields the namespace-qualified name of an object. -/
def k8sNamespacedName (obj : ObjectMeta) : NamespacedName :=
  { Namespace := obj.Namespace, Name := obj.Name }

/-! ## `equality.Semantic.DeepEqual` on `[]corev1.EndpointSubset`

`equality.Semantic` of `k8s.io/apimachinery` walks the two values by reflection:
basic kinds by `==`, pointers through their elements (an invalid element only equals an
invalid one), structs field by field, slices by emptiness, then length, then index by
index.  None of its registered equality functions applies to a type inside
`EndpointSubset`. -/

/-- Default case of `deepValueEqual`: normal equality. -/
def deepValueEqualBasic {α : Type} [DecidableEq α] (v1 v2 : α) : Bool :=
  decide (v1 = v2)

/-- Pointer case of `deepValueEqual`. -/
def deepValueEqualPtr {α : Type} (eq : α → α → Bool) : Option α → Option α → Bool
  | none, none => true
  | some a, some b => eq a b
  | _, _ => false

/-- Slice case of `deepValueEqual`. -/
def deepValueEqualSlice {α : Type} (eq : α → α → Bool) (v1 v2 : List α) : Bool :=
  if (v1.length == 0) != (v2.length == 0) then false
  else if v1.length == 0 then true
  else if v1.length != v2.length then false
  else (List.zipWith eq v1 v2).all id

/-- Struct case at `corev1.ObjectReference`. -/
def deepValueEqualObjectReference (v1 v2 : ObjectReference) : Bool :=
  deepValueEqualBasic v1.Kind v2.Kind
    && deepValueEqualBasic v1.Namespace v2.Namespace
    && deepValueEqualBasic v1.Name v2.Name
    && deepValueEqualBasic v1.UID v2.UID
    && deepValueEqualBasic v1.APIVersion v2.APIVersion
    && deepValueEqualBasic v1.ResourceVersion v2.ResourceVersion
    && deepValueEqualBasic v1.FieldPath v2.FieldPath

/-- Struct case at `corev1.EndpointAddress`. -/
def deepValueEqualEndpointAddress (v1 v2 : EndpointAddress) : Bool :=
  deepValueEqualBasic v1.IP v2.IP
    && deepValueEqualBasic v1.Hostname v2.Hostname
    && deepValueEqualPtr deepValueEqualBasic v1.NodeName v2.NodeName
    && deepValueEqualPtr deepValueEqualObjectReference v1.TargetRef v2.TargetRef

/-- Struct case at `corev1.EndpointPort`. -/
def deepValueEqualEndpointPort (v1 v2 : EndpointPort) : Bool :=
  deepValueEqualBasic v1.Name v2.Name
    && deepValueEqualBasic v1.Port v2.Port
    && deepValueEqualBasic v1.Protocol v2.Protocol
    && deepValueEqualPtr deepValueEqualBasic v1.AppProtocol v2.AppProtocol

/-- Struct case at `corev1.EndpointSubset`. -/
def deepValueEqualEndpointSubset (v1 v2 : EndpointSubset) : Bool :=
  deepValueEqualSlice deepValueEqualEndpointAddress v1.Addresses v2.Addresses
    && deepValueEqualSlice deepValueEqualEndpointAddress v1.NotReadyAddresses v2.NotReadyAddresses
    && deepValueEqualSlice deepValueEqualEndpointPort v1.Ports v2.Ports

/-- Go `equality.Semantic.DeepEqual(a1, a2)` at type `[]corev1.EndpointSubset`. -/
def SemanticDeepEqual (a1 a2 : List EndpointSubset) : Bool :=
  deepValueEqualSlice deepValueEqualEndpointSubset a1 a2

/-! ## The handler -/

/-- Go `enqueueRequestsForEndpointsEvent`.  The struct holds the client, the logger and
the send end of the service event channel; calls on the last two are recorded in the
trace, so the client is the only field that carries behaviour. -/
structure enqueueRequestsForEndpointsEvent (σ : Type) where
  k8sClient : Client σ

variable {σ : Type}

/-- Go `NewEnqueueRequestsForEndpointsEvent`; the channel and the logger it is given are
the sinks recorded in the trace. -/
def NewEnqueueRequestsForEndpointsEvent (k8sClient : Client σ) :
    enqueueRequestsForEndpointsEvent σ :=
  { k8sClient := k8sClient }

/-- Go `enqueueImpactedServices`: one `Get` for the service named like the endpoints; on
an error one `logger.Error` and return; otherwise one `logger.V(1).Info` and one send. -/
def enqueueImpactedServices (h : enqueueRequestsForEndpointsEvent σ) (ctx : Context)
    (ep : Endpoints) (s : σ) : σ × List Effect :=
  let key : ObjectKey := { Namespace := ep.Namespace, Name := ep.Name }
  match h.k8sClient.Get s ctx key with
  | (GetResult.error err, s1) =>
      (s1, [Effect.Get ctx key (GetResult.error err),
            Effect.LogError err "failed to fetch service"])
  | (GetResult.ok svc, s1) =>
      let epKey := k8sNamespacedName ep.toObjectMeta
      (s1, [Effect.Get ctx key (GetResult.ok svc),
            Effect.LogInfo 1 "enqueue service for endpoints event"
              [("endpoints", epKey), ("service", k8sNamespacedName svc.toObjectMeta)],
            Effect.Send { Object := svc }])

/-- Go `Create`. -/
def Create (h : enqueueRequestsForEndpointsEvent σ) (ctx : Context)
    (e : TypedCreateEvent Endpoints) (queue : RateLimitingQueue) (s : σ) : Outcome σ :=
  let epNew := e.Object
  let r := enqueueImpactedServices h ctx epNew s
  { store := r.1, trace := r.2, queue := queue }

/-- Go `Update`. -/
def Update (h : enqueueRequestsForEndpointsEvent σ) (ctx : Context)
    (e : TypedUpdateEvent Endpoints) (queue : RateLimitingQueue) (s : σ) : Outcome σ :=
  let epOld := e.ObjectOld
  let epNew := e.ObjectNew
  if !SemanticDeepEqual epOld.Subsets epNew.Subsets then
    let r := enqueueImpactedServices h ctx epNew s
    { store := r.1, trace := r.2, queue := queue }
  else
    { store := s, trace := [], queue := queue }

/-- Go `Delete`. -/
def Delete (h : enqueueRequestsForEndpointsEvent σ) (ctx : Context)
    (e : TypedDeleteEvent Endpoints) (queue : RateLimitingQueue) (s : σ) : Outcome σ :=
  let epOld := e.Object
  let r := enqueueImpactedServices h ctx epOld s
  { store := r.1, trace := r.2, queue := queue }

/-- Go `Generic`: the body is empty. -/
def Generic (_h : enqueueRequestsForEndpointsEvent σ) (_ctx : Context)
    (_e : TypedGenericEvent Endpoints) (queue : RateLimitingQueue) (s : σ) : Outcome σ :=
  { store := s, trace := [], queue := queue }

/-! ## The event source and what can be observed of a trace -/

/-- The four kinds of event the event source delivers for an `Endpoints` object; each is
handed to the handler method of the same name. -/
inductive Notification where
  | Created (e : TypedCreateEvent Endpoints)
  | Updated (e : TypedUpdateEvent Endpoints)
  | Deleted (e : TypedDeleteEvent Endpoints)
  | Generic (e : TypedGenericEvent Endpoints)
deriving DecidableEq, Repr

/-- Dispatch of `handler.TypedEventHandler`: one notification, one method call. -/
def handle (h : enqueueRequestsForEndpointsEvent σ) (ctx : Context) (n : Notification)
    (queue : RateLimitingQueue) (s : σ) : Outcome σ :=
  match n with
  | Notification.Created e => Create h ctx e queue s
  | Notification.Updated e => Update h ctx e queue s
  | Notification.Deleted e => Delete h ctx e queue s
  | Notification.Generic e => Generic h ctx e queue s

/-- Notifications handled one after another against the same store and the same queue. -/
def handleAll (h : enqueueRequestsForEndpointsEvent σ) :
    List (Context × Notification) → RateLimitingQueue → σ → Outcome σ
  | [], queue, s => { store := s, trace := [], queue := queue }
  | p :: rest, queue, s =>
      let r := handle h p.1 p.2 queue s
      let r2 := handleAll h rest r.queue r.store
      { store := r2.store, trace := r.trace ++ r2.trace, queue := r2.queue }

/-- The snapshot a notification is about: the new object of an update, the object
otherwise. -/
def Notification.snapshot : Notification → Endpoints
  | Notification.Created e => e.Object
  | Notification.Updated e => e.ObjectNew
  | Notification.Deleted e => e.Object
  | Notification.Generic e => e.Object

/-- The namespace-qualified name of the snapshot of a notification. -/
def Notification.key (n : Notification) : ObjectKey :=
  { Namespace := n.snapshot.Namespace, Name := n.snapshot.Name }

/-- A notification that reaches the resolver, in the words of the specification: a
creation, a deletion, or an update whose subsets differ. -/
def reachesResolver : Notification → Prop
  | Notification.Created _ => True
  | Notification.Updated e => e.ObjectOld.Subsets ≠ e.ObjectNew.Subsets
  | Notification.Deleted _ => True
  | Notification.Generic _ => False

/-- Whether a notification reaches the resolver can be computed. -/
instance reachesResolverDecidable : DecidablePred reachesResolver
  | Notification.Created _ => isTrue trivial
  | Notification.Updated e =>
      if hs : e.ObjectOld.Subsets = e.ObjectNew.Subsets then isFalse (fun hne => hne hs)
      else isTrue hs
  | Notification.Deleted _ => isTrue trivial
  | Notification.Generic _ => isFalse (fun hf => hf)

/-- The lookups of a trace: context and key of every `Get`, in order. -/
def lookups (t : List Effect) : List (Context × ObjectKey) :=
  t.filterMap fun
    | Effect.Get ctx key _ => some (ctx, key)
    | _ => none

/-- The lookups of a trace that succeeded: the key asked and the service returned. -/
def answered (t : List Effect) : List (ObjectKey × Service) :=
  t.filterMap fun
    | Effect.Get _ key (GetResult.ok svc) => some (key, svc)
    | _ => none

/-- The lookups of a trace that failed: the error returned. -/
def lookupFailures (t : List Effect) : List ClientError :=
  t.filterMap fun
    | Effect.Get _ _ (GetResult.error err) => some err
    | _ => none

/-- The triggers of a trace: every event sent on `svcEventChan`, in order. -/
def triggers (t : List Effect) : List (TypedGenericEvent Service) :=
  t.filterMap fun
    | Effect.Send ev => some ev
    | _ => none

/-- The failure reports of a trace: every `logger.Error` call, in order. -/
def reports (t : List Effect) : List (ClientError × String) :=
  t.filterMap fun
    | Effect.LogError err msg => some (err, msg)
    | _ => none

/-- Whether the effect is a call on the logger. -/
def Effect.isLogCall : Effect → Bool
  | Effect.LogError _ _ => true
  | Effect.LogInfo _ _ _ => true
  | _ => false

/-- The calls on the logger of a trace, whatever their level. -/
def logCalls (t : List Effect) : List Effect :=
  t.filter Effect.isLogCall

/-- The level of a logger call: `Error`, or `Info` at a verbosity (`V(0)` is plain info,
`V(n)` for `0 < n` is diagnostic output). -/
inductive Severity where
  | error
  | info (v : Nat)
deriving DecidableEq, Repr

/-- Whether the level is diagnostic: an `Info` at a verbosity above zero. -/
def Severity.isDiagnostic : Severity → Bool
  | Severity.info v => decide (0 < v)
  | Severity.error => false

/-- The level of a logger call; `none` for an effect that is not a logger call. -/
def Effect.severity : Effect → Option Severity
  | Effect.LogError _ _ => some Severity.error
  | Effect.LogInfo v _ _ => some (Severity.info v)
  | _ => none

/-- The two subsets hold the same addresses and ports up to their order. -/
def SubsetReordered (a b : EndpointSubset) : Prop :=
  a.Addresses.Perm b.Addresses ∧ a.NotReadyAddresses.Perm b.NotReadyAddresses
    ∧ a.Ports.Perm b.Ports

/-- The relation of the specification between the subsets of an update that differ in
order only: the new sequence is a permutation of the old one, or it differs from it only
in the order of addresses or ports inside a subset. -/
def OrderOnlyChange (old new : List EndpointSubset) : Prop :=
  new.Perm old ∨ List.Forall₂ SubsetReordered old new

/-! ## Concrete objects, stores and events used to evaluate the handler -/

/-- Go `context.Background()`. -/
def ctxBackground : Context := { Err := none }

/-- A context that was cancelled. -/
def ctxCanceled : Context := { Err := some "context canceled" }

/-- An address with only its IP set. -/
def addressOf (ip : String) : EndpointAddress :=
  { IP := ip, Hostname := "", NodeName := none, TargetRef := none }

/-- The TCP port 80. -/
def port80 : EndpointPort :=
  { Name := "http", Port := 80, Protocol := "TCP", AppProtocol := none }

/-- A subset of ready addresses on port 80. -/
def subsetOf (ips : List String) : EndpointSubset :=
  { Addresses := ips.map addressOf, NotReadyAddresses := [], Ports := [port80] }

/-- An `Endpoints` object with the given identity, resource version, labels and subsets. -/
def endpointsOf (ns name rv : String) (labels : List (String × String))
    (subsets : List EndpointSubset) : Endpoints :=
  { Kind := "Endpoints", APIVersion := "v1", Name := name, Namespace := ns, UID := "",
    ResourceVersion := rv, Generation := 0, Labels := labels, Annotations := [],
    Subsets := subsets }

/-- The `Service` object stored under a key, at a generation. -/
def serviceOf (key : ObjectKey) (gen : Int) : Service :=
  { Kind := "Service", APIVersion := "v1", Name := key.Name, Namespace := key.Namespace,
    UID := "", ResourceVersion := "", Generation := gen, Labels := [], Annotations := [],
    Spec := { ServiceType := "NodePort", ClusterIP := "" } }

/-- A store that answers every lookup with the object of the requested key. -/
def storeByKey : Client Unit :=
  { Get := fun _ _ key => (GetResult.ok (serviceOf key 0), ()) }

/-- A store in which no service exists. -/
def storeEmpty : Client Unit :=
  { Get := fun _ _ key => (GetResult.error (ClientError.NotFound key), ()) }

/-- A store that cannot be reached: a cancelled context gives a cancellation error, any
other context a transient I/O error. -/
def storeUnreachable : Client Unit :=
  { Get := fun _ ctx _ =>
      match ctx.Err with
      | some _ => (GetResult.error ClientError.Canceled, ())
      | none => (GetResult.error (ClientError.Transient "connection refused"), ()) }

/-- A stateful store: it answers with the object of the requested key, stamped with the
number of lookups made before. -/
def storeCounting : Client Nat :=
  { Get := fun calls _ key => (GetResult.ok (serviceOf key calls), calls + 1) }

/-- The handler over the store that answers with the object of the requested key. -/
def handlerByKey : enqueueRequestsForEndpointsEvent Unit :=
  NewEnqueueRequestsForEndpointsEvent storeByKey

/-- The handler over the store in which no service exists. -/
def handlerEmpty : enqueueRequestsForEndpointsEvent Unit :=
  NewEnqueueRequestsForEndpointsEvent storeEmpty

/-- The handler over the store that cannot be reached. -/
def handlerUnreachable : enqueueRequestsForEndpointsEvent Unit :=
  NewEnqueueRequestsForEndpointsEvent storeUnreachable

/-- The handler over the stateful store. -/
def handlerCounting : enqueueRequestsForEndpointsEvent Nat :=
  NewEnqueueRequestsForEndpointsEvent storeCounting

/-- A work queue that holds one item and has one item in processing. -/
def queueInUse : RateLimitingQueue :=
  { items := [{ Namespace := "ns9", Name := "ing" }],
    processing := [{ Namespace := "ns9", Name := "other" }],
    numRequeues := [({ Namespace := "ns9", Name := "ing" }, 2)],
    shuttingDown := false }

/-- Update of ("ns1","svcA") from one address to two. -/
def updateGrown : TypedUpdateEvent Endpoints :=
  { ObjectOld := endpointsOf "ns1" "svcA" "7" [] [subsetOf ["10.0.0.1"]],
    ObjectNew := endpointsOf "ns1" "svcA" "8" [] [subsetOf ["10.0.0.1", "10.0.0.2"]] }

/-- Update of ("ns1","svcA") that changes labels and resource version, not the subsets. -/
def updateLabelsOnly : TypedUpdateEvent Endpoints :=
  { ObjectOld := endpointsOf "ns1" "svcA" "7" [("tier", "web")] [subsetOf ["10.0.0.1"]],
    ObjectNew := endpointsOf "ns1" "svcA" "8" [("tier", "db")] [subsetOf ["10.0.0.1"]] }

/-- Update of ("ns1","svcA") that swaps its two subsets. -/
def updateSubsetsSwapped : TypedUpdateEvent Endpoints :=
  { ObjectOld := endpointsOf "ns1" "svcA" "7" [] [subsetOf ["10.0.0.1"], subsetOf ["10.0.0.2"]],
    ObjectNew := endpointsOf "ns1" "svcA" "8" [] [subsetOf ["10.0.0.2"], subsetOf ["10.0.0.1"]] }

/-- Update of ("ns1","svcA") that swaps the two addresses inside its one subset. -/
def updateAddressesSwapped : TypedUpdateEvent Endpoints :=
  { ObjectOld := endpointsOf "ns1" "svcA" "7" [] [subsetOf ["10.0.0.1", "10.0.0.2"]],
    ObjectNew := endpointsOf "ns1" "svcA" "8" [] [subsetOf ["10.0.0.2", "10.0.0.1"]] }

/-- Update of ("ns1","svcA") whose subsets are a permutation that moves nothing. -/
def updateSameOrder : TypedUpdateEvent Endpoints :=
  { ObjectOld := endpointsOf "ns1" "svcA" "7" [] [subsetOf ["10.0.0.1"], subsetOf ["10.0.0.2"]],
    ObjectNew := endpointsOf "ns1" "svcA" "8" [] [subsetOf ["10.0.0.1"], subsetOf ["10.0.0.2"]] }

/-- Create of ("ns2","svcB"). -/
def createB : TypedCreateEvent Endpoints :=
  { Object := endpointsOf "ns2" "svcB" "1" [] [subsetOf ["10.0.1.1"]] }

/-- Delete of ("ns1","svcA"). -/
def deleteA : TypedDeleteEvent Endpoints :=
  { Object := endpointsOf "ns1" "svcA" "9" [] [], DeleteStateUnknown := false }

/-! ## `equality.Semantic.DeepEqual` decides equality of subset sequences -/

theorem deepValueEqualBasic_iff {α : Type} [DecidableEq α] (a b : α) :
    deepValueEqualBasic a b = true ↔ a = b := by
  simp [deepValueEqualBasic]

theorem deepValueEqualPtr_iff {α : Type} (eq : α → α → Bool)
    (heq : ∀ a b, eq a b = true ↔ a = b) (v1 v2 : Option α) :
    deepValueEqualPtr eq v1 v2 = true ↔ v1 = v2 := by
  cases v1 <;> cases v2 <;> simp [deepValueEqualPtr, heq]

theorem zipWith_all_iff {α : Type} (eq : α → α → Bool)
    (heq : ∀ a b, eq a b = true ↔ a = b) :
    ∀ (v1 v2 : List α), v1.length = v2.length →
      ((List.zipWith eq v1 v2).all id = true ↔ v1 = v2)
  | [], [], _ => by simp
  | [], _ :: _, hl => by simp at hl
  | _ :: _, [], hl => by simp at hl
  | a :: as, b :: bs, hl => by
      have hl2 : as.length = bs.length := by simpa using hl
      have ih := zipWith_all_iff eq heq as bs hl2
      simp only [List.zipWith_cons_cons, List.all_cons, Bool.and_eq_true, id, heq, ih,
        List.cons.injEq]

theorem deepValueEqualSlice_iff {α : Type} (eq : α → α → Bool)
    (heq : ∀ a b, eq a b = true ↔ a = b) (v1 v2 : List α) :
    deepValueEqualSlice eq v1 v2 = true ↔ v1 = v2 := by
  unfold deepValueEqualSlice
  cases v1 with
  | nil => cases v2 <;> simp
  | cons a as =>
    cases v2 with
    | nil => simp
    | cons b bs =>
      by_cases hl : as.length = bs.length
      · have h := zipWith_all_iff eq heq (a :: as) (b :: bs) (by simp [hl])
        simpa [hl] using h
      · have hne : a :: as ≠ b :: bs := by
          intro h
          apply hl
          have := congrArg List.length h
          simpa using this
        simp [hl, hne]

theorem deepValueEqualObjectReference_iff (a b : ObjectReference) :
    deepValueEqualObjectReference a b = true ↔ a = b := by
  cases a
  cases b
  simp only [deepValueEqualObjectReference, Bool.and_eq_true, deepValueEqualBasic_iff,
    ObjectReference.mk.injEq, and_assoc]

theorem deepValueEqualEndpointAddress_iff (a b : EndpointAddress) :
    deepValueEqualEndpointAddress a b = true ↔ a = b := by
  cases a
  cases b
  simp only [deepValueEqualEndpointAddress, Bool.and_eq_true, deepValueEqualBasic_iff,
    deepValueEqualPtr_iff _ deepValueEqualBasic_iff,
    deepValueEqualPtr_iff _ deepValueEqualObjectReference_iff,
    EndpointAddress.mk.injEq, and_assoc]

theorem deepValueEqualEndpointPort_iff (a b : EndpointPort) :
    deepValueEqualEndpointPort a b = true ↔ a = b := by
  cases a
  cases b
  simp only [deepValueEqualEndpointPort, Bool.and_eq_true, deepValueEqualBasic_iff,
    deepValueEqualPtr_iff _ deepValueEqualBasic_iff, EndpointPort.mk.injEq, and_assoc]

theorem deepValueEqualEndpointSubset_iff (a b : EndpointSubset) :
    deepValueEqualEndpointSubset a b = true ↔ a = b := by
  cases a
  cases b
  simp only [deepValueEqualEndpointSubset, Bool.and_eq_true,
    deepValueEqualSlice_iff _ deepValueEqualEndpointAddress_iff,
    deepValueEqualSlice_iff _ deepValueEqualEndpointPort_iff,
    EndpointSubset.mk.injEq, and_assoc]

/-- The test of `Update` holds exactly when the two subset sequences agree element for
element. -/
theorem SemanticDeepEqual_iff (a1 a2 : List EndpointSubset) :
    SemanticDeepEqual a1 a2 = true ↔ a1 = a2 :=
  deepValueEqualSlice_iff _ deepValueEqualEndpointSubset_iff a1 a2

theorem SemanticDeepEqual_eq_false_iff (a1 a2 : List EndpointSubset) :
    SemanticDeepEqual a1 a2 = false ↔ a1 ≠ a2 := by
  rw [Ne, ← SemanticDeepEqual_iff, Bool.not_eq_true]

/-! ## The two paths of `enqueueImpactedServices` -/

theorem enqueueImpactedServices_ok (h : enqueueRequestsForEndpointsEvent σ) (ctx : Context)
    (ep : Endpoints) (s s1 : σ) (svc : Service)
    (hget : h.k8sClient.Get s ctx { Namespace := ep.Namespace, Name := ep.Name }
      = (GetResult.ok svc, s1)) :
    enqueueImpactedServices h ctx ep s
      = (s1, [Effect.Get ctx { Namespace := ep.Namespace, Name := ep.Name } (GetResult.ok svc),
              Effect.LogInfo 1 "enqueue service for endpoints event"
                [("endpoints", k8sNamespacedName ep.toObjectMeta),
                 ("service", k8sNamespacedName svc.toObjectMeta)],
              Effect.Send { Object := svc }]) := by
  simp only [enqueueImpactedServices, hget]

theorem enqueueImpactedServices_error (h : enqueueRequestsForEndpointsEvent σ)
    (ctx : Context) (ep : Endpoints) (s s1 : σ) (err : ClientError)
    (hget : h.k8sClient.Get s ctx { Namespace := ep.Namespace, Name := ep.Name }
      = (GetResult.error err, s1)) :
    enqueueImpactedServices h ctx ep s
      = (s1, [Effect.Get ctx { Namespace := ep.Namespace, Name := ep.Name }
                (GetResult.error err),
              Effect.LogError err "failed to fetch service"]) := by
  simp only [enqueueImpactedServices, hget]

/-- The trace of `enqueueImpactedServices`, by the answer of its lookup. -/
theorem enqueueImpactedServices_trace (h : enqueueRequestsForEndpointsEvent σ)
    (ctx : Context) (ep : Endpoints) (s : σ) :
    (enqueueImpactedServices h ctx ep s).2
      = match (h.k8sClient.Get s ctx { Namespace := ep.Namespace, Name := ep.Name }).1 with
        | GetResult.ok svc =>
            [Effect.Get ctx { Namespace := ep.Namespace, Name := ep.Name } (GetResult.ok svc),
             Effect.LogInfo 1 "enqueue service for endpoints event"
               [("endpoints", k8sNamespacedName ep.toObjectMeta),
                ("service", k8sNamespacedName svc.toObjectMeta)],
             Effect.Send { Object := svc }]
        | GetResult.error err =>
            [Effect.Get ctx { Namespace := ep.Namespace, Name := ep.Name }
               (GetResult.error err),
             Effect.LogError err "failed to fetch service"] := by
  rcases hget : h.k8sClient.Get s ctx { Namespace := ep.Namespace, Name := ep.Name }
    with ⟨res, s1⟩
  cases res with
  | ok svc => rw [enqueueImpactedServices_ok h ctx ep s s1 svc hget]
  | error err => rw [enqueueImpactedServices_error h ctx ep s s1 err hget]

/-- The store after `enqueueImpactedServices` is the store after its one lookup. -/
theorem enqueueImpactedServices_store (h : enqueueRequestsForEndpointsEvent σ)
    (ctx : Context) (ep : Endpoints) (s : σ) :
    (enqueueImpactedServices h ctx ep s).1
      = (h.k8sClient.Get s ctx { Namespace := ep.Namespace, Name := ep.Name }).2 := by
  rcases hget : h.k8sClient.Get s ctx { Namespace := ep.Namespace, Name := ep.Name }
    with ⟨res, s1⟩
  cases res with
  | ok svc => rw [enqueueImpactedServices_ok h ctx ep s s1 svc hget]
  | error err => rw [enqueueImpactedServices_error h ctx ep s s1 err hget]

/-- A notification that reaches the resolver is handled by `enqueueImpactedServices` on
its snapshot. -/
theorem handle_of_reachesResolver (h : enqueueRequestsForEndpointsEvent σ) (ctx : Context)
    (n : Notification) (queue : RateLimitingQueue) (s : σ) (hr : reachesResolver n) :
    handle h ctx n queue s
      = { store := (enqueueImpactedServices h ctx n.snapshot s).1,
          trace := (enqueueImpactedServices h ctx n.snapshot s).2,
          queue := queue } := by
  cases n with
  | Created e => rfl
  | Updated e =>
      have hne : SemanticDeepEqual e.ObjectOld.Subsets e.ObjectNew.Subsets = false :=
        (SemanticDeepEqual_eq_false_iff _ _).mpr hr
      simp [handle, Update, hne, Notification.snapshot]
  | Deleted e => rfl
  | Generic e => exact absurd hr (by simp [reachesResolver])

/-! ## Update with differing subsets -/

/-- C1: for an Updated notification whose subsets differ, whatever the store answers,
`Update` makes exactly one lookup, keyed by the namespace and name of the new object; if
the lookup succeeds exactly one trigger is sent and it carries the service the lookup
returned, otherwise none is sent; a returned service that bears the requested namespace
and name makes every trigger bear the namespace and name of the new object. -/
theorem update_differing_subsets_one_lookup_one_trigger
    (h : enqueueRequestsForEndpointsEvent σ) (ctx : Context)
    (e : TypedUpdateEvent Endpoints) (queue : RateLimitingQueue) (s : σ)
    (hdiff : e.ObjectOld.Subsets ≠ e.ObjectNew.Subsets) :
    lookups (Update h ctx e queue s).trace
        = [(ctx, { Namespace := e.ObjectNew.Namespace, Name := e.ObjectNew.Name })]
      ∧ triggers (Update h ctx e queue s).trace
        = (match (h.k8sClient.Get s ctx
              { Namespace := e.ObjectNew.Namespace, Name := e.ObjectNew.Name }).1 with
           | GetResult.ok svc => [{ Object := svc }]
           | GetResult.error _ => [])
      ∧ ((∀ p ∈ answered (Update h ctx e queue s).trace,
            p.2.Namespace = p.1.Namespace ∧ p.2.Name = p.1.Name) →
          ∀ ev ∈ triggers (Update h ctx e queue s).trace,
            ev.Object.Namespace = e.ObjectNew.Namespace
              ∧ ev.Object.Name = e.ObjectNew.Name) := by
  have hne : SemanticDeepEqual e.ObjectOld.Subsets e.ObjectNew.Subsets = false :=
    (SemanticDeepEqual_eq_false_iff _ _).mpr hdiff
  have htr : (Update h ctx e queue s).trace
      = (enqueueImpactedServices h ctx e.ObjectNew s).2 := by
    simp [Update, hne]
  rw [htr, enqueueImpactedServices_trace]
  cases (h.k8sClient.Get s ctx
      { Namespace := e.ObjectNew.Namespace, Name := e.ObjectNew.Name }).1 with
  | ok svc =>
      refine ⟨by simp [lookups], by simp [triggers], ?_⟩
      intro hans ev hev
      have hsvc := hans (⟨e.ObjectNew.Namespace, e.ObjectNew.Name⟩, svc)
        (by simp [answered])
      have hev2 : ev = { Object := svc } := by simpa [triggers] using hev
      subst hev2
      exact hsvc
  | error err =>
      refine ⟨by simp [lookups], by simp [triggers], ?_⟩
      intro _ ev hev
      simp [triggers] at hev

/-- C1, evaluated on the update of ("ns1","svcA") from one address to two against a
store that answers with the object of the requested key. -/
theorem update_differing_subsets_witness :
    updateGrown.ObjectOld.Subsets ≠ updateGrown.ObjectNew.Subsets
      ∧ lookups (Update handlerByKey ctxBackground updateGrown queueInUse ()).trace
          = [(ctxBackground, { Namespace := "ns1", Name := "svcA" })]
      ∧ triggers (Update handlerByKey ctxBackground updateGrown queueInUse ()).trace
          = [{ Object := serviceOf { Namespace := "ns1", Name := "svcA" } 0 }] :=
  ⟨by decide,
   (update_differing_subsets_one_lookup_one_trigger handlerByKey ctxBackground updateGrown
      queueInUse () (by decide)).1,
   (update_differing_subsets_one_lookup_one_trigger handlerByKey ctxBackground updateGrown
      queueInUse () (by decide)).2.1⟩

/-! ## Update with unchanged subsets -/

/-- C2: for an Updated notification whose old and new subsets are the same sequence,
whatever else differs between the two objects and whatever the store would answer,
`Update` makes no lookup, sends no trigger, makes no report and no other logger call,
and leaves the store as it was. -/
theorem update_same_subsets_suppressed
    (h : enqueueRequestsForEndpointsEvent σ) (ctx : Context)
    (e : TypedUpdateEvent Endpoints) (queue : RateLimitingQueue) (s : σ)
    (hsame : e.ObjectOld.Subsets = e.ObjectNew.Subsets) :
    lookups (Update h ctx e queue s).trace = []
      ∧ triggers (Update h ctx e queue s).trace = []
      ∧ reports (Update h ctx e queue s).trace = []
      ∧ (Update h ctx e queue s).trace = []
      ∧ (Update h ctx e queue s).store = s := by
  have heq : SemanticDeepEqual e.ObjectOld.Subsets e.ObjectNew.Subsets = true :=
    (SemanticDeepEqual_iff _ _).mpr hsame
  have htr : (Update h ctx e queue s).trace = [] := by simp [Update, heq]
  have hst : (Update h ctx e queue s).store = s := by simp [Update, heq]
  rw [htr, hst]
  simp [lookups, triggers, reports]

/-- C2, evaluated on an update of ("ns1","svcA") that changes labels and resource
version only. -/
theorem update_same_subsets_witness :
    updateLabelsOnly.ObjectOld ≠ updateLabelsOnly.ObjectNew
      ∧ updateLabelsOnly.ObjectOld.Subsets = updateLabelsOnly.ObjectNew.Subsets
      ∧ (Update handlerByKey ctxBackground updateLabelsOnly queueInUse ()).trace = [] :=
  ⟨by decide, by decide,
   (update_same_subsets_suppressed handlerByKey ctxBackground updateLabelsOnly queueInUse ()
      (by decide)).2.2.2.1⟩

/-! ## Create and Delete -/

/-- C4: for every Created and every Deleted notification, whatever the subsets of the
snapshot and whatever the store answers, the handler makes exactly one lookup, keyed by
the namespace and name of the snapshot; if the lookup succeeds exactly one trigger is
sent and it carries the returned service, otherwise none is sent. -/
theorem create_delete_one_lookup_one_trigger
    (h : enqueueRequestsForEndpointsEvent σ) (ctx : Context)
    (c : TypedCreateEvent Endpoints) (d : TypedDeleteEvent Endpoints)
    (queue : RateLimitingQueue) (s : σ) :
    (lookups (Create h ctx c queue s).trace
        = [(ctx, { Namespace := c.Object.Namespace, Name := c.Object.Name })]
      ∧ triggers (Create h ctx c queue s).trace
        = (match (h.k8sClient.Get s ctx
              { Namespace := c.Object.Namespace, Name := c.Object.Name }).1 with
           | GetResult.ok svc => [{ Object := svc }]
           | GetResult.error _ => []))
    ∧ (lookups (Delete h ctx d queue s).trace
        = [(ctx, { Namespace := d.Object.Namespace, Name := d.Object.Name })]
      ∧ triggers (Delete h ctx d queue s).trace
        = (match (h.k8sClient.Get s ctx
              { Namespace := d.Object.Namespace, Name := d.Object.Name }).1 with
           | GetResult.ok svc => [{ Object := svc }]
           | GetResult.error _ => [])) := by
  have hc : (Create h ctx c queue s).trace
      = (enqueueImpactedServices h ctx c.Object s).2 := rfl
  have hd : (Delete h ctx d queue s).trace
      = (enqueueImpactedServices h ctx d.Object s).2 := rfl
  rw [hc, hd, enqueueImpactedServices_trace, enqueueImpactedServices_trace]
  constructor
  · cases (h.k8sClient.Get s ctx
        { Namespace := c.Object.Namespace, Name := c.Object.Name }).1 <;>
      simp [lookups, triggers]
  · cases (h.k8sClient.Get s ctx
        { Namespace := d.Object.Namespace, Name := d.Object.Name }).1 <;>
      simp [lookups, triggers]

/-! ## Lookup failure -/

/-- C5: for every notification that reaches the resolver and every error the lookup can
fail with, the handling call makes exactly one lookup, sends no trigger, makes exactly
one failure report (carrying that error), and completes with the store as the lookup
left it; the call has no result through which the error could surface. -/
theorem lookup_failure_one_report_no_trigger
    (h : enqueueRequestsForEndpointsEvent σ) (ctx : Context) (n : Notification)
    (queue : RateLimitingQueue) (s s1 : σ) (err : ClientError)
    (hr : reachesResolver n)
    (hfail : h.k8sClient.Get s ctx n.key = (GetResult.error err, s1)) :
    lookups (handle h ctx n queue s).trace = [(ctx, n.key)]
      ∧ triggers (handle h ctx n queue s).trace = []
      ∧ reports (handle h ctx n queue s).trace = [(err, "failed to fetch service")]
      ∧ (reports (handle h ctx n queue s).trace).length = 1
      ∧ (handle h ctx n queue s).store = s1 := by
  rw [handle_of_reachesResolver h ctx n queue s hr]
  have hget : h.k8sClient.Get s ctx
      { Namespace := n.snapshot.Namespace, Name := n.snapshot.Name }
      = (GetResult.error err, s1) := hfail
  simp only [enqueueImpactedServices_error h ctx n.snapshot s s1 err hget]
  simp [lookups, triggers, reports, Notification.key]

/-- C5, evaluated on the delete of ("ns1","svcA") against a store in which the service
does not exist. -/
theorem lookup_failure_witness :
    reports (handle handlerEmpty ctxBackground (Notification.Deleted deleteA) queueInUse
        ()).trace
      = [(ClientError.NotFound { Namespace := "ns1", Name := "svcA" },
          "failed to fetch service")]
      ∧ triggers (handle handlerEmpty ctxBackground (Notification.Deleted deleteA)
          queueInUse ()).trace = [] :=
  ⟨(lookup_failure_one_report_no_trigger handlerEmpty ctxBackground
      (Notification.Deleted deleteA) queueInUse () ()
      (ClientError.NotFound { Namespace := "ns1", Name := "svcA" }) trivial rfl).2.2.1,
   (lookup_failure_one_report_no_trigger handlerEmpty ctxBackground
      (Notification.Deleted deleteA) queueInUse () ()
      (ClientError.NotFound { Namespace := "ns1", Name := "svcA" }) trivial rfl).2.1⟩

/-! ## Generic -/

/-- C6: for every Generic notification, whatever object it carries and whatever the
store would answer, `Generic` makes no lookup, sends no trigger and makes no report: its
trace is empty and the store is left as it was. -/
theorem generic_is_noop
    (h : enqueueRequestsForEndpointsEvent σ) (ctx : Context)
    (e : TypedGenericEvent Endpoints) (queue : RateLimitingQueue) (s : σ) :
    lookups (Generic h ctx e queue s).trace = []
      ∧ triggers (Generic h ctx e queue s).trace = []
      ∧ reports (Generic h ctx e queue s).trace = []
      ∧ (Generic h ctx e queue s).trace = []
      ∧ (Generic h ctx e queue s).store = s := by
  simp [Generic, lookups, triggers, reports]

/-! ## Reordered subsets -/

/-- C3, refuted: an update of ("ns1","svcA") that swaps its two subsets, and one that
swaps the two addresses inside its one subset, differ from the old object in order only,
and each makes `Update` send a trigger when the lookup succeeds. -/
theorem update_reordered_subsets_sends_trigger :
    (OrderOnlyChange updateSubsetsSwapped.ObjectOld.Subsets
        updateSubsetsSwapped.ObjectNew.Subsets
      ∧ triggers (Update handlerByKey ctxBackground updateSubsetsSwapped queueInUse
          ()).trace = [{ Object := serviceOf { Namespace := "ns1", Name := "svcA" } 0 }])
    ∧ (OrderOnlyChange updateAddressesSwapped.ObjectOld.Subsets
        updateAddressesSwapped.ObjectNew.Subsets
      ∧ triggers (Update handlerByKey ctxBackground updateAddressesSwapped queueInUse
          ()).trace = [{ Object := serviceOf { Namespace := "ns1", Name := "svcA" } 0 }]) := by
  refine ⟨⟨Or.inl ?_, by decide⟩, ⟨Or.inr ?_, by decide⟩⟩
  · exact List.Perm.swap _ _ []
  · refine List.Forall₂.cons ⟨?_, List.Perm.refl _, List.Perm.refl _⟩ List.Forall₂.nil
    exact List.Perm.swap _ _ []

/-- C3, amended: the test of `Update` compares the subsets position by position.  For an
Updated notification whose new subsets are a reordering of the old ones, or differ from
them only in the order of addresses or ports inside a subset, no trigger is sent when the
two sequences are the same element for element; when they are not, one lookup is made
and, if it succeeds, one trigger carrying the returned service is sent. -/
theorem update_reordered_subsets_compared_in_order
    (h : enqueueRequestsForEndpointsEvent σ) (ctx : Context)
    (e : TypedUpdateEvent Endpoints) (queue : RateLimitingQueue) (s : σ)
    (_hre : OrderOnlyChange e.ObjectOld.Subsets e.ObjectNew.Subsets) :
    triggers (Update h ctx e queue s).trace
      = (if e.ObjectOld.Subsets = e.ObjectNew.Subsets then []
         else match (h.k8sClient.Get s ctx
                { Namespace := e.ObjectNew.Namespace, Name := e.ObjectNew.Name }).1 with
              | GetResult.ok svc => [{ Object := svc }]
              | GetResult.error _ => [])
      ∧ lookups (Update h ctx e queue s).trace
      = (if e.ObjectOld.Subsets = e.ObjectNew.Subsets then []
         else [(ctx, { Namespace := e.ObjectNew.Namespace, Name := e.ObjectNew.Name })]) := by
  by_cases hs : e.ObjectOld.Subsets = e.ObjectNew.Subsets
  · have heq : SemanticDeepEqual e.ObjectOld.Subsets e.ObjectNew.Subsets = true :=
      (SemanticDeepEqual_iff _ _).mpr hs
    have htr : (Update h ctx e queue s).trace = [] := by simp [Update, heq]
    rw [htr, if_pos hs, if_pos hs]
    simp [triggers, lookups]
  · have hne : SemanticDeepEqual e.ObjectOld.Subsets e.ObjectNew.Subsets = false :=
      (SemanticDeepEqual_eq_false_iff _ _).mpr hs
    have htr : (Update h ctx e queue s).trace
        = (enqueueImpactedServices h ctx e.ObjectNew s).2 := by
      simp [Update, hne]
    rw [htr, if_neg hs, if_neg hs, enqueueImpactedServices_trace]
    cases (h.k8sClient.Get s ctx
        { Namespace := e.ObjectNew.Namespace, Name := e.ObjectNew.Name }).1 <;>
      simp [triggers, lookups]

/-- C3 amended, evaluated on an update whose subsets are a permutation that moves
nothing: no lookup is made. -/
theorem update_reordered_subsets_witness :
    OrderOnlyChange updateSameOrder.ObjectOld.Subsets updateSameOrder.ObjectNew.Subsets
      ∧ lookups (Update handlerByKey ctxBackground updateSameOrder queueInUse ()).trace = []
      ∧ triggers (Update handlerByKey ctxBackground updateSameOrder queueInUse ()).trace
        = [] :=
  ⟨Or.inl (List.Perm.refl _),
   (update_reordered_subsets_compared_in_order handlerByKey ctxBackground updateSameOrder
      queueInUse () (Or.inl (List.Perm.refl _))).2.trans (if_pos rfl),
   (update_reordered_subsets_compared_in_order handlerByKey ctxBackground updateSameOrder
      queueInUse () (Or.inl (List.Perm.refl _))).1.trans (if_pos rfl)⟩

/-! ## Level of the failure report -/

/-- C7, refuted: on the delete of ("ns1","svcA") the lookup fails with not-found, and the
one logger call made is at error level, which is not a diagnostic level. -/
theorem not_found_reported_at_error_level :
    lookupFailures (Delete handlerEmpty ctxBackground deleteA queueInUse ()).trace
        = [ClientError.NotFound { Namespace := "ns1", Name := "svcA" }]
      ∧ (logCalls (Delete handlerEmpty ctxBackground deleteA queueInUse ()).trace).map
          Effect.severity = [some Severity.error]
      ∧ Severity.isDiagnostic Severity.error = false := by
  decide

/-- C7, amended: the level of the failure report does not depend on the kind of lookup
failure.  For every notification that reaches the resolver and every error the lookup
fails with (not-found, transient, cancellation, deadline), the only logger call is one
`Error` call carrying that error with the message "failed to fetch service". -/
theorem failure_report_always_error_level
    (h : enqueueRequestsForEndpointsEvent σ) (ctx : Context) (n : Notification)
    (queue : RateLimitingQueue) (s s1 : σ) (err : ClientError)
    (hr : reachesResolver n)
    (hfail : h.k8sClient.Get s ctx n.key = (GetResult.error err, s1)) :
    logCalls (handle h ctx n queue s).trace
        = [Effect.LogError err "failed to fetch service"]
      ∧ (logCalls (handle h ctx n queue s).trace).map Effect.severity
        = [some Severity.error] := by
  rw [handle_of_reachesResolver h ctx n queue s hr]
  have hget : h.k8sClient.Get s ctx
      { Namespace := n.snapshot.Namespace, Name := n.snapshot.Name }
      = (GetResult.error err, s1) := hfail
  simp only [enqueueImpactedServices_error h ctx n.snapshot s s1 err hget]
  simp [logCalls, Effect.isLogCall, Effect.severity]

/-- C7 amended, evaluated on the create of ("ns2","svcB") against a store that fails with
a transient error, and on the delete of ("ns1","svcA") under a cancelled context. -/
theorem failure_report_level_witness :
    (logCalls (handle handlerUnreachable ctxBackground
        (Notification.Created createB) queueInUse ()).trace).map Effect.severity
        = [some Severity.error]
      ∧ logCalls (handle handlerUnreachable ctxCanceled
          (Notification.Deleted deleteA) queueInUse ()).trace
        = [Effect.LogError ClientError.Canceled "failed to fetch service"] :=
  ⟨(failure_report_always_error_level handlerUnreachable
      ctxBackground (Notification.Created createB) queueInUse () ()
      (ClientError.Transient "connection refused") trivial rfl).2,
   (failure_report_always_error_level handlerUnreachable
      ctxCanceled (Notification.Deleted deleteA) queueInUse () ()
      ClientError.Canceled trivial rfl).1⟩

/-! ## Logger calls on success -/

/-- C9, refuted: on the create of ("ns2","svcB") the lookup succeeds, the trigger is
sent, and the handler makes a logger call: one `Info` at verbosity 1. -/
theorem success_makes_info_log_call :
    lookupFailures (Create handlerByKey ctxBackground createB queueInUse ()).trace = []
      ∧ triggers (Create handlerByKey ctxBackground createB queueInUse ()).trace
        = [{ Object := serviceOf { Namespace := "ns2", Name := "svcB" } 0 }]
      ∧ logCalls (Create handlerByKey ctxBackground createB queueInUse ()).trace
        = [Effect.LogInfo 1 "enqueue service for endpoints event"
            [("endpoints", { Namespace := "ns2", Name := "svcB" }),
             ("service", { Namespace := "ns2", Name := "svcB" })]]
      ∧ logCalls (Create handlerByKey ctxBackground createB queueInUse ()).trace ≠ [] := by
  decide

/-- C9, amended: for every notification whose lookup succeeds and whose trigger is
sent, the handling call makes no failure report (no `Error` call); it makes exactly one
logger call, an `Info` at verbosity 1 with the message "enqueue service for endpoints
event", carrying the namespace-qualified name of the endpoints under "endpoints" and that
of the returned service under "service", and it makes that call after the lookup and
before the send: the calls of the handling are exactly the lookup, that `Info` call and
the send, in this order. -/
theorem success_no_report_one_info_call
    (h : enqueueRequestsForEndpointsEvent σ) (ctx : Context) (n : Notification)
    (queue : RateLimitingQueue) (s s1 : σ) (svc : Service)
    (hr : reachesResolver n)
    (hok : h.k8sClient.Get s ctx n.key = (GetResult.ok svc, s1)) :
    (handle h ctx n queue s).trace
        = [Effect.Get ctx n.key (GetResult.ok svc),
           Effect.LogInfo 1 "enqueue service for endpoints event"
             [("endpoints", n.key),
              ("service", { Namespace := svc.Namespace, Name := svc.Name })],
           Effect.Send { Object := svc }]
      ∧ triggers (handle h ctx n queue s).trace = [{ Object := svc }]
      ∧ reports (handle h ctx n queue s).trace = []
      ∧ logCalls (handle h ctx n queue s).trace
        = [Effect.LogInfo 1 "enqueue service for endpoints event"
            [("endpoints", n.key),
             ("service", { Namespace := svc.Namespace, Name := svc.Name })]] := by
  have hget : h.k8sClient.Get s ctx
      { Namespace := n.snapshot.Namespace, Name := n.snapshot.Name }
      = (GetResult.ok svc, s1) := hok
  have htr : (handle h ctx n queue s).trace
      = [Effect.Get ctx n.key (GetResult.ok svc),
         Effect.LogInfo 1 "enqueue service for endpoints event"
           [("endpoints", n.key),
            ("service", { Namespace := svc.Namespace, Name := svc.Name })],
         Effect.Send { Object := svc }] := by
    rw [handle_of_reachesResolver h ctx n queue s hr]
    simp only [enqueueImpactedServices_ok h ctx n.snapshot s s1 svc hget]
    rfl
  rw [htr]
  exact ⟨rfl, rfl, rfl, rfl⟩

/-- C9 amended, evaluated on the update of ("ns1","svcA") from one address to two: the
lookup, then the `Info` call naming ("ns1","svcA") twice, then the send. -/
theorem success_no_report_witness :
    (handle handlerByKey ctxBackground (Notification.Updated updateGrown)
        queueInUse ()).trace
      = [Effect.Get ctxBackground { Namespace := "ns1", Name := "svcA" }
           (GetResult.ok (serviceOf { Namespace := "ns1", Name := "svcA" } 0)),
         Effect.LogInfo 1 "enqueue service for endpoints event"
           [("endpoints", { Namespace := "ns1", Name := "svcA" }),
            ("service", { Namespace := "ns1", Name := "svcA" })],
         Effect.Send { Object := serviceOf { Namespace := "ns1", Name := "svcA" } 0 }]
      ∧ reports (handle handlerByKey ctxBackground (Notification.Updated updateGrown)
          queueInUse ()).trace = [] :=
  ⟨(success_no_report_one_info_call handlerByKey ctxBackground
      (Notification.Updated updateGrown) queueInUse () ()
      (serviceOf { Namespace := "ns1", Name := "svcA" } 0) (by decide) rfl).1,
   (success_no_report_one_info_call handlerByKey ctxBackground
      (Notification.Updated updateGrown) queueInUse () ()
      (serviceOf { Namespace := "ns1", Name := "svcA" } 0) (by decide) rfl).2.2.1⟩

/-! ## Sequences of notifications -/

theorem lookups_append (t1 t2 : List Effect) :
    lookups (t1 ++ t2) = lookups t1 ++ lookups t2 := by
  simp [lookups, List.filterMap_append]

theorem answered_append (t1 t2 : List Effect) :
    answered (t1 ++ t2) = answered t1 ++ answered t2 := by
  simp [answered, List.filterMap_append]

theorem lookupFailures_append (t1 t2 : List Effect) :
    lookupFailures (t1 ++ t2) = lookupFailures t1 ++ lookupFailures t2 := by
  simp [lookupFailures, List.filterMap_append]

theorem triggers_append (t1 t2 : List Effect) :
    triggers (t1 ++ t2) = triggers t1 ++ triggers t2 := by
  simp [triggers, List.filterMap_append]

/-- A notification that reaches the resolver and whose lookup does not fail leaves the
trace of the success path. -/
theorem handle_trace_of_no_failure (h : enqueueRequestsForEndpointsEvent σ) (ctx : Context)
    (n : Notification) (queue : RateLimitingQueue) (s : σ) (hr : reachesResolver n)
    (hok : lookupFailures (handle h ctx n queue s).trace = []) :
    ∃ svc kvs, (handle h ctx n queue s).trace
      = [Effect.Get ctx n.key (GetResult.ok svc),
         Effect.LogInfo 1 "enqueue service for endpoints event" kvs,
         Effect.Send { Object := svc }] := by
  rw [handle_of_reachesResolver h ctx n queue s hr] at hok ⊢
  simp only [enqueueImpactedServices_trace] at hok ⊢
  cases hres : (h.k8sClient.Get s ctx
      { Namespace := n.snapshot.Namespace, Name := n.snapshot.Name }).1 with
  | ok svc => exact ⟨svc, _, rfl⟩
  | error err =>
      rw [hres] at hok
      simp [lookupFailures] at hok

/-- What a sequence of notifications that all reach the resolver leaves behind when no
lookup fails. -/
theorem handleAll_of_no_failure (h : enqueueRequestsForEndpointsEvent σ) :
    ∀ (ns : List (Context × Notification)) (queue : RateLimitingQueue) (s : σ),
      (∀ p ∈ ns, reachesResolver p.2) →
      lookupFailures (handleAll h ns queue s).trace = [] →
      lookups (handleAll h ns queue s).trace = ns.map (fun p => (p.1, p.2.key))
        ∧ (answered (handleAll h ns queue s).trace).map Prod.fst = ns.map (fun p => p.2.key)
        ∧ triggers (handleAll h ns queue s).trace
          = (answered (handleAll h ns queue s).trace).map (fun p => { Object := p.2 })
  | [], queue, s, _, _ => by simp [handleAll, lookups, answered, triggers]
  | p :: rest, queue, s, hr, hok => by
      have hstep : (handleAll h (p :: rest) queue s).trace
          = (handle h p.1 p.2 queue s).trace
            ++ (handleAll h rest (handle h p.1 p.2 queue s).queue
                  (handle h p.1 p.2 queue s).store).trace := rfl
      rw [hstep, lookupFailures_append] at hok
      have hok1 := (List.append_eq_nil.mp hok).1
      have hok2 := (List.append_eq_nil.mp hok).2
      have hr1 : reachesResolver p.2 := hr p (List.mem_cons_self _ _)
      have hr2 : ∀ q ∈ rest, reachesResolver q.2 :=
        fun q hq => hr q (List.mem_cons_of_mem _ hq)
      obtain ⟨svc, kvs, htr⟩ := handle_trace_of_no_failure h p.1 p.2 queue s hr1 hok1
      have ih := handleAll_of_no_failure h rest (handle h p.1 p.2 queue s).queue
        (handle h p.1 p.2 queue s).store hr2 hok2
      rw [hstep, lookups_append, answered_append, triggers_append, htr]
      obtain ⟨ih1, ih2, ih3⟩ := ih
      refine ⟨?_, ?_, ?_⟩
      · rw [ih1]
        simp [lookups]
      · rw [List.map_append, ih2]
        simp [answered]
      · rw [ih3]
        simp [answered, triggers]

/-- C8: triggers are not deduplicated and nothing is carried from one notification to
the next.  When n notifications that reach the resolver are handled one after another
and no lookup fails, exactly n triggers are sent; the i-th lookup is keyed by the i-th
notification and the i-th trigger carries the service the i-th lookup returned; so with
a store that answers with the object of the requested key, the triggers name the
identities of the notifications in the order handled, repetitions included. -/
theorem sequence_triggers_not_deduplicated (h : enqueueRequestsForEndpointsEvent σ)
    (ns : List (Context × Notification)) (queue : RateLimitingQueue) (s : σ)
    (hr : ∀ p ∈ ns, reachesResolver p.2)
    (hok : lookupFailures (handleAll h ns queue s).trace = []) :
    (triggers (handleAll h ns queue s).trace).length = ns.length
      ∧ lookups (handleAll h ns queue s).trace = ns.map (fun p => (p.1, p.2.key))
      ∧ (answered (handleAll h ns queue s).trace).map Prod.fst = ns.map (fun p => p.2.key)
      ∧ triggers (handleAll h ns queue s).trace
        = (answered (handleAll h ns queue s).trace).map (fun p => { Object := p.2 })
      ∧ ((∀ p ∈ answered (handleAll h ns queue s).trace,
            k8sNamespacedName p.2.toObjectMeta = p.1) →
          (triggers (handleAll h ns queue s).trace).map
              (fun ev => k8sNamespacedName ev.Object.toObjectMeta)
            = ns.map (fun p => p.2.key)) := by
  obtain ⟨h1, h2, h3⟩ := handleAll_of_no_failure h ns queue s hr hok
  refine ⟨?_, h1, h2, h3, ?_⟩
  · rw [h3, List.length_map, ← List.length_map (answered (handleAll h ns queue s).trace)
      Prod.fst, h2, List.length_map]
  · intro hans
    rw [h3, ← h2, List.map_map]
    apply List.map_congr_left
    intro p hp
    exact hans p hp

/-- C8, evaluated on three creations of the same ("ns2","svcB") against the stateful
store: three triggers, stamped 0, 1, 2 in the order handled. -/
theorem sequence_triggers_witness :
    triggers (handleAll handlerCounting
        [(ctxBackground, Notification.Created createB),
         (ctxBackground, Notification.Created createB),
         (ctxBackground, Notification.Created createB)] queueInUse 0).trace
      = [{ Object := serviceOf { Namespace := "ns2", Name := "svcB" } 0 },
         { Object := serviceOf { Namespace := "ns2", Name := "svcB" } 1 },
         { Object := serviceOf { Namespace := "ns2", Name := "svcB" } 2 }]
      ∧ (triggers (handleAll handlerCounting
        [(ctxBackground, Notification.Created createB),
         (ctxBackground, Notification.Created createB),
         (ctxBackground, Notification.Created createB)] queueInUse 0).trace).length = 3 :=
  ⟨by decide,
   (sequence_triggers_not_deduplicated handlerCounting
      [(ctxBackground, Notification.Created createB),
       (ctxBackground, Notification.Created createB),
       (ctxBackground, Notification.Created createB)] queueInUse 0
      (by decide) (by decide)).1⟩

/-! ## The work queue -/

theorem handle_queue (h : enqueueRequestsForEndpointsEvent σ) (ctx : Context)
    (n : Notification) (queue : RateLimitingQueue) (s : σ) :
    (handle h ctx n queue s).queue = queue := by
  cases n with
  | Created e => rfl
  | Updated e =>
      simp only [handle, Update]
      split <;> rfl
  | Deleted e => rfl
  | Generic e => rfl

theorem handleAll_queue (h : enqueueRequestsForEndpointsEvent σ) :
    ∀ (ns : List (Context × Notification)) (queue : RateLimitingQueue) (s : σ),
      (handleAll h ns queue s).queue = queue
  | [], _, _ => rfl
  | p :: rest, queue, s => by
      have hstep : (handleAll h (p :: rest) queue s).queue
          = (handleAll h rest (handle h p.1 p.2 queue s).queue
              (handle h p.1 p.2 queue s).store).queue := rfl
      rw [hstep, handleAll_queue h rest, handle_queue]

/-- C10: no handler method touches the work queue it is handed.  For every event of
every kind and every store, `Create`, `Update`, `Delete` and `Generic` return the queue
exactly as they received it, and so does the handling of any sequence of notifications;
the calls a handler makes are those of its trace: lookups, logger calls and sends on the
service event channel. -/
theorem queue_left_untouched (h : enqueueRequestsForEndpointsEvent σ) (ctx : Context)
    (c : TypedCreateEvent Endpoints) (u : TypedUpdateEvent Endpoints)
    (d : TypedDeleteEvent Endpoints) (g : TypedGenericEvent Endpoints)
    (ns : List (Context × Notification)) (queue : RateLimitingQueue) (s : σ) :
    (Create h ctx c queue s).queue = queue
      ∧ (Update h ctx u queue s).queue = queue
      ∧ (Delete h ctx d queue s).queue = queue
      ∧ (Generic h ctx g queue s).queue = queue
      ∧ (handleAll h ns queue s).queue = queue :=
  ⟨rfl, handle_queue h ctx (Notification.Updated u) queue s, rfl, rfl,
    handleAll_queue h ns queue s⟩

end eventhandlers
